import Mathlib

/-!
Shallow embedding of the pica UWB subsystem engine
(`src/uwb_subsystem/device.rs` and `src/bin/main.rs`).

Rust `HashMap` values are embedded as association lists with first-match
lookup and replace-in-place insertion; `tokio::mpsc` channels are embedded
as channel identifiers, with every packet sent recorded as a
(channel, packet) pair in the handler's output list; fallible operations
(assertion failures, lookups of absent device handles) return `Option`.
-/

/-- Status codes from the generated `uci_packets` module, restricted to the
variants used by `device.rs` (Rust spelling kept, including the typos). -/
inductive StatusCode
  | UciStatusOk
  | UciStatusMaxSesssionsExceeded
  | UciStatusSesssionDuplicate
  | UciStatusInvalidParam
deriving DecidableEq

/-- Device lifecycle states from `uci_packets`. -/
inductive DeviceState
  | DeviceStateReady
  | DeviceStateActive
  | DeviceStateError
deriving DecidableEq

/-- Packet boundary flag from `uci_packets`. -/
inductive PacketBoundaryFlag
  | Complete
  | NotComplete
deriving DecidableEq

/-- Modelled from the spec: session lifecycle states
(`session_state ∈ \x7bInit, Idle, Active, Deinit\x7d`); `session.rs` is not
among the provided sources. -/
inductive SessionState
  | SessionStateInit
  | SessionStateIdle
  | SessionStateActive
  | SessionStateDeinit
deriving DecidableEq

/-- Capability TLV tags, exactly the tags appearing in `DEFAULT_CAPS_INFO`
in `device.rs`. -/
inductive CapTlvType
  | SupportedFiraPhyVersionRange
  | SupportedFiraMacVersionRange
  | SupportedDeviceRoles
  | SupportedRangingMethod
  | SupportedStsConfig
  | SupportedMultiNodeModes
  | SupportedBlockStriding
  | SupportedUwbInitiationTime
  | SupportedChannels
  | SupportedRframeConfig
  | SupportedBprfParameterSets
  | SupportedHprfParameterSets
  | SupportedCcConstraintLength
  | SupportedAoa
  | SupportedAoaResultReqAntennaInterleaving
  | SupportedExtendedMacAddress
deriving DecidableEq

/-- Reset configuration of a `DeviceResetCmd`: the single variant matched
in `Pica::device_reset`. -/
inductive ResetConfig
  | UwbsReset
deriving DecidableEq

/-- Modelled from the spec: a 3-D coordinate with default origin
(`position.rs` is not among the provided sources). -/
structure Position where
  x : Int
  y : Int
  z : Int
deriving DecidableEq

def Position.default : Position := { x := 0, y := 0, z := 0 }

/-- Modelled from the spec: a Session owned by a Device, holding the session
identifier, lifecycle state and scheduling parameters (`session.rs` is not
among the provided sources; only the `id` field is read by `device.rs`). -/
structure Session where
  id : Nat
  state : SessionState
  ranging_interval : Nat
  participants : List Nat
deriving DecidableEq

/-- A `DeviceParameter` from `uci_packets`: parameter id and raw value
bytes (bytes embedded as `Nat`). -/
structure DeviceParameter where
  id : Nat
  value : List Nat
deriving DecidableEq

/-- A `DeviceConfigStatus` entry from `uci_packets`. -/
structure DeviceConfigStatus where
  parameter_id : Nat
  status : StatusCode
deriving DecidableEq

/-- A capability TLV as built by `Pica::get_caps_info`. -/
structure CapTlv where
  t : CapTlvType
  v : List Nat
deriving DecidableEq

/-- First-match lookup in an association list, embedding
`HashMap::get`. -/
def mapLookup {α : Type} (m : List (Nat × α)) (k : Nat) : Option α :=
  match m with
  | [] => none
  | (k', v) :: rest => if k' = k then some v else mapLookup rest k

/-- Insertion into an association list: replaces the binding in place when
the key is present, appends otherwise; embedding `HashMap::insert`
extensionally (lookup and length agree with the hash map). -/
def mapInsert {α : Type} (m : List (Nat × α)) (k : Nat) (v : α) : List (Nat × α) :=
  match m with
  | [] => [(k, v)]
  | (k', v') :: rest =>
    if k' = k then (k, v) :: rest else (k', v') :: mapInsert rest k v

/-- `HashMap::extend`: insert every pair of `ps` in order. -/
def mapExtend {α : Type} (m : List (Nat × α)) (ps : List (Nat × α)) : List (Nat × α) :=
  ps.foldl (fun acc q => mapInsert acc q.1 q.2) m

/-- The `Device` struct of `device.rs`. The `tx` field is the identity of
the outbound `mpsc` channel (cloning a sender yields the same channel, so
the identity is all that is observable). -/
structure Device where
  mac_address : Nat
  position : Position
  state : DeviceState
  sessions : List (Nat × Session)
  tx : Nat
  config : List (Nat × List Nat)
  country_code : List Nat
deriving DecidableEq

/-- `Device::new`. -/
def Device.new (device_handle : Nat) (tx : Nat) : Device :=
  { mac_address := device_handle
    position := Position.default
    state := DeviceState.DeviceStateReady
    sessions := []
    tx := tx
    config := []
    country_code := [0, 0] }

/-- `Device::add_session`. The bound `MAX_SESSION` is declared in the
missing `session.rs`, so it is taken as an explicit parameter here; the
control flow is exactly that of the source: reject when
`sessions.len() > MAX_SESSION`, otherwise insert (replacing any binding
with the same id, as `HashMap::insert` does) and report `SesssionDuplicate`
when a binding was already present. -/
def Device.add_session (maxSession : Nat) (d : Device) (session : Session) :
    StatusCode × Device :=
  if d.sessions.length > maxSession then
    (StatusCode.UciStatusMaxSesssionsExceeded, d)
  else
    let old := mapLookup d.sessions session.id
    let d' := { d with sessions := mapInsert d.sessions session.id session }
    match old with
    | some _ => (StatusCode.UciStatusSesssionDuplicate, d')
    | none => (StatusCode.UciStatusOk, d')

/-- `Device::get_session_cnt`. -/
def Device.get_session_cnt (d : Device) : Nat :=
  d.sessions.length

/-- The UCI packets emitted by the `device.rs` handlers (response and
notification builders restricted to the fields they populate). -/
inductive UciPacket
  | DeviceResetRsp (status : StatusCode)
  | DeviceStatusNtf (device_state : DeviceState)
  | GetDeviceInfoRsp (status : StatusCode) (uci_version mac_version phy_version uci_test_version : Nat) (vendor_spec_info : List Nat)
  | GetCapsInfoRsp (status : StatusCode) (tlvs : List CapTlv)
  | SetConfigRsp (status : StatusCode) (parameters : List DeviceConfigStatus)
  | GetConfigRsp (status : StatusCode) (parameters : List DeviceParameter)
deriving DecidableEq

/-- `const UCI_VERSION: u16 = 0x110`. -/
def UCI_VERSION : Nat := 0x110

/-- `const MAC_VERSION: u16 = 0x130`. -/
def MAC_VERSION : Nat := 0x130

/-- `const PHY_VERSION: u16 = 0x130`. -/
def PHY_VERSION : Nat := 0x130

/-- `const TEST_VERSION: u16 = 0x110`. -/
def TEST_VERSION : Nat := 0x110

/-- `DEFAULT_CAPS_INFO`, value for value as in `device.rs`. -/
def DEFAULT_CAPS_INFO : List (CapTlvType × List Nat) :=
  [ (CapTlvType.SupportedFiraPhyVersionRange, [1, 1, 1, 3])
  , (CapTlvType.SupportedFiraMacVersionRange, [1, 1, 1, 3])
  , (CapTlvType.SupportedDeviceRoles, [0x3])
  , (CapTlvType.SupportedRangingMethod, [0x1f])
  , (CapTlvType.SupportedStsConfig, [0x7])
  , (CapTlvType.SupportedMultiNodeModes, [0x0])
  , (CapTlvType.SupportedBlockStriding, [0x0])
  , (CapTlvType.SupportedUwbInitiationTime, [0x0])
  , (CapTlvType.SupportedChannels, [0xff])
  , (CapTlvType.SupportedRframeConfig, [0x0])
  , (CapTlvType.SupportedBprfParameterSets, [0x0])
  , (CapTlvType.SupportedHprfParameterSets, [0x0])
  , (CapTlvType.SupportedCcConstraintLength, [0x0])
  , (CapTlvType.SupportedAoa, [0x0])
  , (CapTlvType.SupportedAoaResultReqAntennaInterleaving, [0x0])
  , (CapTlvType.SupportedExtendedMacAddress, [0x0]) ]

/-- The Coordinator state used by the `device.rs` handlers: the registry of
devices keyed by device handle. -/
structure Pica where
  devices : List (Nat × Device)
deriving DecidableEq

/-- A `DeviceResetCmdPacket` restricted to the field read by the handler. -/
structure DeviceResetCmd where
  reset_config : ResetConfig
deriving DecidableEq

/-- A `GetDeviceInfoCmdPacket` (no field is read by the handler). -/
structure GetDeviceInfoCmd where
  packet_boundary_flag : PacketBoundaryFlag
deriving DecidableEq

/-- A `GetCapsInfoCmdPacket` restricted to the field read by the handler. -/
structure GetCapsInfoCmd where
  packet_boundary_flag : PacketBoundaryFlag
deriving DecidableEq

/-- A `SetConfigCmdPacket` restricted to the fields read by the handler. -/
structure SetConfigCmd where
  packet_boundary_flag : PacketBoundaryFlag
  parameters : List DeviceParameter
deriving DecidableEq

/-- A `GetConfigCmdPacket` restricted to the fields read by the handler. -/
structure GetConfigCmd where
  packet_boundary_flag : PacketBoundaryFlag
  parameter_ids : List Nat
deriving DecidableEq

/-- `Pica::device_reset`: send the reset response through the target
device's channel, replace the Device in the registry by
`Device::new(handle, old.tx.clone())`, then send a
Device-Status(Ready) notification through the fresh device's channel. -/
def Pica.device_reset (p : Pica) (handle : Nat) (cmd : DeviceResetCmd) :
    Option (Pica × List (Nat × UciPacket)) :=
  match mapLookup p.devices handle with
  | none => none
  | some device =>
    let status := match cmd.reset_config with
      | ResetConfig.UwbsReset => StatusCode.UciStatusOk
    let device := { device with state := DeviceState.DeviceStateReady }
    let devices := mapInsert p.devices handle device
    let out1 := (device.tx, UciPacket.DeviceResetRsp status)
    match mapLookup devices handle with
    | none => none
    | some old =>
      let devices := mapInsert devices handle (Device.new handle old.tx)
      match mapLookup devices handle with
      | none => none
      | some fresh =>
        some (⟨devices⟩,
          [out1, (fresh.tx, UciPacket.DeviceStatusNtf DeviceState.DeviceStateReady)])

/-- `Pica::get_device_info`: asserts the device is in state Ready
(assertion failure is embedded as `none`), then responds with the fixed
version numbers. -/
def Pica.get_device_info (p : Pica) (handle : Nat) (_cmd : GetDeviceInfoCmd) :
    Option (Pica × List (Nat × UciPacket)) :=
  match mapLookup p.devices handle with
  | none => none
  | some device =>
    if device.state = DeviceState.DeviceStateReady then
      some (p, [(device.tx,
        UciPacket.GetDeviceInfoRsp StatusCode.UciStatusOk
          UCI_VERSION MAC_VERSION PHY_VERSION TEST_VERSION [])])
    else none

/-- `Pica::get_caps_info`: asserts the packet boundary flag is Complete
(assertion failure is embedded as `none`), then responds with the static
capability table. -/
def Pica.get_caps_info (p : Pica) (handle : Nat) (cmd : GetCapsInfoCmd) :
    Option (Pica × List (Nat × UciPacket)) :=
  if cmd.packet_boundary_flag = PacketBoundaryFlag.Complete then
    let caps := DEFAULT_CAPS_INFO.map (fun e => CapTlv.mk e.1 e.2)
    match mapLookup p.devices handle with
    | none => none
    | some device =>
      some (p, [(device.tx, UciPacket.GetCapsInfoRsp StatusCode.UciStatusOk caps)])
  else none

/-- One step of the `Pica::set_config` fold: a recognized parameter id is
staged into the valid-parameter map, an unrecognized one is appended to the
invalid-status list. `recognized` embeds `DeviceConfigId::from_u8(id).is_some()`;
the `DeviceConfigId` enumeration lives in the generated `uci_packets`
module, which is not among the provided sources, so per the spec
("only ids recognized as valid DeviceConfigIds may be written") the
recognition predicate is an explicit parameter. -/
def setConfigStep (recognized : Nat → Bool)
    (acc : List (Nat × List Nat) × List DeviceConfigStatus)
    (param : DeviceParameter) : List (Nat × List Nat) × List DeviceConfigStatus :=
  if recognized param.id then
    (mapInsert acc.1 param.id param.value, acc.2)
  else
    (acc.1, acc.2 ++ [{ parameter_id := param.id
                        status := StatusCode.UciStatusInvalidParam }])

/-- `Pica::set_config`: asserts state Ready and boundary flag Complete
(assertion failure is embedded as `none`); folds the submitted parameters
into (staged valid map, invalid-status list); if no parameter is invalid,
extends the device config with the staged map and responds Ok with an
empty list, otherwise leaves the config untouched and responds
InvalidParam with the invalid-status list. -/
def Pica.set_config (recognized : Nat → Bool) (p : Pica) (handle : Nat)
    (cmd : SetConfigCmd) : Option (Pica × List (Nat × UciPacket)) :=
  match mapLookup p.devices handle with
  | none => none
  | some device =>
    if device.state = DeviceState.DeviceStateReady then
      if cmd.packet_boundary_flag = PacketBoundaryFlag.Complete then
        let acc := cmd.parameters.foldl (setConfigStep recognized) ([], [])
        if acc.2.isEmpty then
          let device := { device with config := mapExtend device.config acc.1 }
          some (⟨mapInsert p.devices handle device⟩,
            [(device.tx, UciPacket.SetConfigRsp StatusCode.UciStatusOk [])])
        else
          some (⟨mapInsert p.devices handle device⟩,
            [(device.tx, UciPacket.SetConfigRsp StatusCode.UciStatusInvalidParam acc.2)])
      else none
    else none

/-- One step of the `Pica::get_config` fold: a requested id present in the
config store is appended to the valid list with its value, an absent one is
appended to the invalid list with an empty value. -/
def getConfigStep (cfg : List (Nat × List Nat))
    (acc : List DeviceParameter × List DeviceParameter)
    (i : Nat) : List DeviceParameter × List DeviceParameter :=
  match mapLookup cfg i with
  | some value => (acc.1 ++ [{ id := i, value := value }], acc.2)
  | none => (acc.1, acc.2 ++ [{ id := i, value := [] }])

/-- `Pica::get_config`: asserts boundary flag Complete (assertion failure
is embedded as `none`); folds the requested ids into (resolved, unresolved)
lists; responds Ok with the resolved parameters when every id resolved,
otherwise InvalidParam with the unresolved ids carrying empty values. -/
def Pica.get_config (p : Pica) (handle : Nat) (cmd : GetConfigCmd) :
    Option (Pica × List (Nat × UciPacket)) :=
  if cmd.packet_boundary_flag = PacketBoundaryFlag.Complete then
    match mapLookup p.devices handle with
    | none => none
    | some device =>
      let acc := cmd.parameter_ids.foldl (getConfigStep device.config) ([], [])
      if acc.2.isEmpty then
        some (p, [(device.tx, UciPacket.GetConfigRsp StatusCode.UciStatusOk acc.1)])
      else
        some (p, [(device.tx, UciPacket.GetConfigRsp StatusCode.UciStatusInvalidParam acc.2)])
  else none

/-- Modelled from the spec: `RangingMeasurement` is the value type produced
by the estimator ("distance/angle data", "default/empty value signals no
data yet"); its definition is not among the provided sources. -/
structure RangingMeasurement where
  range : Nat
  azimuth : Int
  elevation : Int
deriving DecidableEq

/-- The `Default::default()` ranging measurement. -/
def RangingMeasurement.default : RangingMeasurement :=
  { range := 0, azimuth := 0, elevation := 0 }

/-- `MockRangingEstimator::estimate` from `src/bin/main.rs`:
`Some(Default::default())`, ignoring both handles and touching no state. -/
def MockRangingEstimator.estimate (_left _right : Nat) : Option RangingMeasurement :=
  some RangingMeasurement.default

/-- A fresh Session with a given id, in state Init with empty scheduling
parameters, used to drive `add_session` on concrete inputs. -/
def mkSession (i : Nat) : Session :=
  { id := i
    state := SessionState.SessionStateInit
    ranging_interval := 0
    participants := [] }

/-- Sequentially add fresh sessions with the given ids, collecting the
status code returned by each `add_session` call. -/
def addSessions (maxSession : Nat) (d : Device) (ids : List Nat) :
    Device × List StatusCode :=
  match ids with
  | [] => (d, [])
  | i :: rest =>
    let r := Device.add_session maxSession d (mkSession i)
    let r2 := addSessions maxSession r.2 rest
    (r2.1, r.1 :: r2.2)

/-- C9: The reference Ranging Estimator returns, for every pair of device
handles, Some of the default/empty RangingMeasurement — never None — and,
being a pure function of its two arguments, mutates no engine state. -/
theorem mock_ranging_estimator_estimate_default (left right : Nat) :
    MockRangingEstimator.estimate left right = some RangingMeasurement.default :=
  rfl

/-- C1: code bug witness. With the session bound instantiated at 2, a fresh
device accepts 3 = MAX_SESSION + 1 sessions with distinct ids: every add
returns Ok and the session count reaches MAX_SESSION + 1, violating the
claimed invariant; only the (MAX_SESSION + 2)-th add is rejected with
MaxSessionsExceeded, after which the count stays at MAX_SESSION + 1. -/
theorem add_session_exceeds_max_session_bound :
    (addSessions 2 (Device.new 0 0) [1, 2, 3]).2 =
      [StatusCode.UciStatusOk, StatusCode.UciStatusOk, StatusCode.UciStatusOk]
    ∧ (addSessions 2 (Device.new 0 0) [1, 2, 3]).1.get_session_cnt = 3
    ∧ (addSessions 2 (Device.new 0 0) [1, 2, 3, 4]).2 =
      [StatusCode.UciStatusOk, StatusCode.UciStatusOk, StatusCode.UciStatusOk,
        StatusCode.UciStatusMaxSesssionsExceeded]
    ∧ (addSessions 2 (Device.new 0 0) [1, 2, 3, 4]).1.get_session_cnt = 3 := by
  decide

/-- C2: code bug witness. Adding a session whose id already exists returns
SesssionDuplicate but, because the insertion happens before the duplicate
check, the stored session for that id is replaced by the newly submitted
one: the session map does not stay unchanged. -/
theorem add_session_duplicate_replaces_session :
    (Device.add_session 5
        { Device.new 0 0 with
            sessions := [(1, { id := 1, state := SessionState.SessionStateActive,
                               ranging_interval := 100, participants := [2] })] }
        (mkSession 1)).1 = StatusCode.UciStatusSesssionDuplicate
    ∧ mapLookup (Device.add_session 5
        { Device.new 0 0 with
            sessions := [(1, { id := 1, state := SessionState.SessionStateActive,
                               ranging_interval := 100, participants := [2] })] }
        (mkSession 1)).2.sessions 1 = some (mkSession 1)
    ∧ mkSession 1 ≠ ({ id := 1, state := SessionState.SessionStateActive,
                       ranging_interval := 100, participants := [2] } : Session) := by
  decide

/-- Right-biased-on-none choice of options (`a` if it is `some`, else `b`). -/
def optOr {α : Type} (a b : Option α) : Option α :=
  match a with
  | some v => some v
  | none => b

/-- The value of the last occurrence of id `i` in a parameter list, if any. -/
def lastValue (params : List DeviceParameter) (i : Nat) : Option (List Nat) :=
  match params with
  | [] => none
  | q :: rest =>
    match lastValue rest i with
    | some v => some v
    | none => if q.id = i then some q.value else none

/-- The value of the last occurrence of id `i` among the recognized
parameters of a parameter list, if any. -/
def lastValidValue (recognized : Nat → Bool) (params : List DeviceParameter) (i : Nat) :
    Option (List Nat) :=
  match params with
  | [] => none
  | q :: rest =>
    match lastValidValue recognized rest i with
    | some v => some v
    | none =>
      if recognized q.id then (if q.id = i then some q.value else none) else none

/-- The invalid-status entries for the unrecognized parameters of a
parameter list, in submission order. -/
def invalidEntries (recognized : Nat → Bool) (params : List DeviceParameter) :
    List DeviceConfigStatus :=
  match params with
  | [] => []
  | q :: rest =>
    if recognized q.id then invalidEntries recognized rest
    else { parameter_id := q.id, status := StatusCode.UciStatusInvalidParam }
      :: invalidEntries recognized rest

/-- The requested ids present in the config store, in request order, each
paired with its stored value. -/
def resolvedParams (cfg : List (Nat × List Nat)) (ids : List Nat) :
    List DeviceParameter :=
  match ids with
  | [] => []
  | i :: rest =>
    match mapLookup cfg i with
    | some v => { id := i, value := v } :: resolvedParams cfg rest
    | none => resolvedParams cfg rest

/-- The requested ids absent from the config store, in request order, each
paired with an empty value. -/
def unresolvedParams (cfg : List (Nat × List Nat)) (ids : List Nat) :
    List DeviceParameter :=
  match ids with
  | [] => []
  | i :: rest =>
    match mapLookup cfg i with
    | some _ => unresolvedParams cfg rest
    | none => { id := i, value := [] } :: unresolvedParams cfg rest

/-- The staged valid-parameter map built by the `set_config` fold, starting
from `vp`. -/
def stage (recognized : Nat → Bool) (vp : List (Nat × List Nat))
    (params : List DeviceParameter) : List (Nat × List Nat) :=
  match params with
  | [] => vp
  | q :: rest =>
    stage recognized (if recognized q.id then mapInsert vp q.id q.value else vp) rest

/-- All parameters submitted by a sequence of Set-Config commands, in
submission order. -/
def allWrites (cmds : List SetConfigCmd) : List DeviceParameter :=
  match cmds with
  | [] => []
  | cmd :: rest => cmd.parameters ++ allWrites rest

/-- The value last written for id `i` by a sequence of Set-Config
commands, if any. -/
def lastWritten (cmds : List SetConfigCmd) (i : Nat) : Option (List Nat) :=
  lastValue (allWrites cmds) i

/-- Run a sequence of Set-Config commands against one device handle,
stopping (with `none`) at the first failed assertion. -/
def runSetConfigs (recognized : Nat → Bool) (p : Pica) (handle : Nat)
    (cmds : List SetConfigCmd) : Option Pica :=
  match cmds with
  | [] => some p
  | cmd :: rest =>
    match Pica.set_config recognized p handle cmd with
    | some (p', _) => runSetConfigs recognized p' handle rest
    | none => none

theorem optOr_none_right {α : Type} (a : Option α) : optOr a none = a := by
  cases a <;> rfl

theorem optOr_assoc {α : Type} (a b c : Option α) :
    optOr (optOr a b) c = optOr a (optOr b c) := by
  cases a <;> cases b <;> rfl

theorem optOr_of_isSome {α : Type} (a b : Option α) (h : a.isSome) :
    optOr a b = a := by
  cases a with
  | none => simp [Option.isSome] at h
  | some v => rfl

theorem mapLookup_mapInsert {α : Type} (m : List (Nat × α)) (k i : Nat) (v : α) :
    mapLookup (mapInsert m k v) i = if k = i then some v else mapLookup m i := by
  induction m with
  | nil => by_cases h : k = i <;> simp [mapInsert, mapLookup, h]
  | cons hd tl ih =>
    obtain ⟨k', v'⟩ := hd
    by_cases h1 : k' = k
    · subst h1
      by_cases h2 : k' = i <;> simp [mapInsert, mapLookup, h2]
    · by_cases h2 : k' = i
      · subst h2
        have hki : ¬ k = k' := fun he => h1 he.symm
        simp [mapInsert, mapLookup, h1, hki]
      · simp [mapInsert, mapLookup, h1, h2, ih]

theorem mapLookup_eq_none_of_not_mem {α : Type} (m : List (Nat × α)) (k : Nat)
    (h : k ∉ m.map Prod.fst) : mapLookup m k = none := by
  induction m with
  | nil => rfl
  | cons hd tl ih =>
    obtain ⟨k', v'⟩ := hd
    simp only [List.map_cons, List.mem_cons] at h
    push_neg at h
    have hk : ¬ k' = k := fun he => h.1 he.symm
    simp [mapLookup, hk, ih h.2]

theorem mem_keys_mapInsert {α : Type} (m : List (Nat × α)) (k : Nat) (v : α) (i : Nat) :
    i ∈ (mapInsert m k v).map Prod.fst ↔ i = k ∨ i ∈ m.map Prod.fst := by
  induction m with
  | nil => simp [mapInsert]
  | cons hd tl ih =>
    obtain ⟨k', v'⟩ := hd
    by_cases h1 : k' = k
    · subst h1
      simp [mapInsert]
    · simp only [mapInsert, if_neg h1, List.map_cons, List.mem_cons, ih]
      tauto

theorem keys_nodup_mapInsert {α : Type} (m : List (Nat × α)) (k : Nat) (v : α)
    (h : (m.map Prod.fst).Nodup) : ((mapInsert m k v).map Prod.fst).Nodup := by
  induction m with
  | nil => simp [mapInsert]
  | cons hd tl ih =>
    obtain ⟨k', v'⟩ := hd
    simp only [List.map_cons, List.nodup_cons] at h
    by_cases h1 : k' = k
    · subst h1
      have hins : mapInsert ((k', v') :: tl) k' v = (k', v) :: tl := by
        simp [mapInsert]
      rw [hins]
      simp only [List.map_cons, List.nodup_cons]
      exact ⟨h.1, h.2⟩
    · simp only [mapInsert, if_neg h1, List.map_cons, List.nodup_cons]
      refine ⟨fun hmem => ?_, ih h.2⟩
      rcases (mem_keys_mapInsert tl k v k').1 hmem with he | hmem2
      · exact h1 he
      · exact h.1 hmem2

theorem setConfig_foldl (recognized : Nat → Bool) (params : List DeviceParameter) :
    ∀ vp inv, params.foldl (setConfigStep recognized) (vp, inv) =
      (stage recognized vp params, inv ++ invalidEntries recognized params) := by
  induction params with
  | nil => intro vp inv; simp [stage, invalidEntries]
  | cons q rest ih =>
    intro vp inv
    rw [List.foldl_cons]
    by_cases hq : recognized q.id
    · have hstep : setConfigStep recognized (vp, inv) q = (mapInsert vp q.id q.value, inv) := by
        simp [setConfigStep, hq]
      rw [hstep, ih]
      simp [stage, invalidEntries, hq]
    · have hstep : setConfigStep recognized (vp, inv) q =
          (vp, inv ++ [{ parameter_id := q.id, status := StatusCode.UciStatusInvalidParam }]) := by
        simp [setConfigStep, hq]
      rw [hstep, ih]
      simp [stage, invalidEntries, hq]

theorem mapLookup_stage (recognized : Nat → Bool) (params : List DeviceParameter) (i : Nat) :
    ∀ vp, mapLookup (stage recognized vp params) i =
      optOr (lastValidValue recognized params i) (mapLookup vp i) := by
  induction params with
  | nil => intro vp; simp [stage, lastValidValue, optOr]
  | cons q rest ih =>
    intro vp
    by_cases hq : recognized q.id
    · have hs : stage recognized vp (q :: rest) =
          stage recognized (mapInsert vp q.id q.value) rest := by
        simp [stage, hq]
      rw [hs, ih]
      cases hlv : lastValidValue recognized rest i with
      | some v => simp [lastValidValue, hlv, optOr]
      | none =>
        simp only [lastValidValue, hlv, optOr, hq, if_true]
        rw [mapLookup_mapInsert]
        by_cases hqi : q.id = i <;> simp [hqi, optOr]
    · have hs : stage recognized vp (q :: rest) = stage recognized vp rest := by
        simp [stage, hq]
      rw [hs, ih]
      cases hlv : lastValidValue recognized rest i with
      | some v => simp [lastValidValue, hlv, optOr, hq]
      | none => simp [lastValidValue, hlv, optOr, hq]

theorem stage_keys_nodup (recognized : Nat → Bool) (params : List DeviceParameter) :
    ∀ vp, (vp.map Prod.fst).Nodup → ((stage recognized vp params).map Prod.fst).Nodup := by
  induction params with
  | nil => intro vp h; simpa [stage] using h
  | cons q rest ih =>
    intro vp h
    by_cases hq : recognized q.id
    · have hs : stage recognized vp (q :: rest) =
          stage recognized (mapInsert vp q.id q.value) rest := by
        simp [stage, hq]
      rw [hs]
      exact ih _ (keys_nodup_mapInsert vp q.id q.value h)
    · have hs : stage recognized vp (q :: rest) = stage recognized vp rest := by
        simp [stage, hq]
      rw [hs]
      exact ih _ h

theorem mapLookup_mapExtend {α : Type} (vp : List (Nat × α)) (i : Nat) :
    ∀ cfg, (vp.map Prod.fst).Nodup →
      mapLookup (mapExtend cfg vp) i = optOr (mapLookup vp i) (mapLookup cfg i) := by
  induction vp with
  | nil => intro cfg _; simp [mapExtend, mapLookup, optOr]
  | cons x ps ih =>
    intro cfg h
    obtain ⟨k, v⟩ := x
    simp only [List.map_cons, List.nodup_cons] at h
    have hx : mapExtend cfg ((k, v) :: ps) = mapExtend (mapInsert cfg k v) ps := by
      simp [mapExtend]
    rw [hx, ih _ h.2]
    by_cases hki : k = i
    · subst hki
      have hnone : mapLookup ps k = none := mapLookup_eq_none_of_not_mem ps k h.1
      rw [mapLookup_mapInsert]
      simp [mapLookup, hnone, optOr]
    · rw [mapLookup_mapInsert]
      simp [mapLookup, hki, optOr]

theorem invalidEntries_eq_nil_iff (recognized : Nat → Bool) (params : List DeviceParameter) :
    invalidEntries recognized params = [] ↔ ∀ q ∈ params, recognized q.id := by
  induction params with
  | nil => simp [invalidEntries]
  | cons q rest ih =>
    by_cases hq : recognized q.id <;> simp [invalidEntries, hq, ih]

theorem getConfig_foldl (cfg : List (Nat × List Nat)) (ids : List Nat) :
    ∀ v inv, ids.foldl (getConfigStep cfg) (v, inv) =
      (v ++ resolvedParams cfg ids, inv ++ unresolvedParams cfg ids) := by
  induction ids with
  | nil => intro v inv; simp [resolvedParams, unresolvedParams]
  | cons i rest ih =>
    intro v inv
    rw [List.foldl_cons]
    cases hlk : mapLookup cfg i with
    | some value =>
      have hstep : getConfigStep cfg (v, inv) i = (v ++ [{ id := i, value := value }], inv) := by
        simp [getConfigStep, hlk]
      rw [hstep, ih]
      simp [resolvedParams, unresolvedParams, hlk]
    | none =>
      have hstep : getConfigStep cfg (v, inv) i = (v, inv ++ [{ id := i, value := [] }]) := by
        simp [getConfigStep, hlk]
      rw [hstep, ih]
      simp [resolvedParams, unresolvedParams, hlk]

theorem unresolvedParams_eq_nil_iff (cfg : List (Nat × List Nat)) (ids : List Nat) :
    unresolvedParams cfg ids = [] ↔ ∀ i ∈ ids, (mapLookup cfg i).isSome := by
  induction ids with
  | nil => simp [unresolvedParams]
  | cons i rest ih =>
    cases hlk : mapLookup cfg i with
    | some v => simp [unresolvedParams, hlk, ih]
    | none => simp [unresolvedParams, hlk]

theorem resolvedParams_eq_map (cfg : List (Nat × List Nat)) (ids : List Nat)
    (hall : ∀ i ∈ ids, (mapLookup cfg i).isSome) :
    resolvedParams cfg ids =
      ids.map (fun i => { id := i, value := (mapLookup cfg i).getD [] }) := by
  induction ids with
  | nil => simp [resolvedParams]
  | cons i rest ih =>
    have hi : (mapLookup cfg i).isSome := hall i (by simp)
    cases hlk : mapLookup cfg i with
    | none => rw [hlk] at hi; simp at hi
    | some v =>
      have hrest : ∀ j ∈ rest, (mapLookup cfg j).isSome := fun j hj => hall j (by simp [hj])
      simp [resolvedParams, hlk, ih hrest]

theorem lastValue_append (ps qs : List DeviceParameter) (i : Nat) :
    lastValue (ps ++ qs) i = optOr (lastValue qs i) (lastValue ps i) := by
  induction ps with
  | nil => simp [lastValue, optOr_none_right]
  | cons q ps ih =>
    rw [List.cons_append]
    show (match lastValue (ps ++ qs) i with
      | some v => some v
      | none => if q.id = i then some q.value else none) = _
    rw [ih]
    cases hq : lastValue qs i <;> cases hp : lastValue ps i <;>
      simp [lastValue, optOr, hq, hp]

theorem lastValidValue_eq_lastValue (recognized : Nat → Bool)
    (params : List DeviceParameter) (h : ∀ q ∈ params, recognized q.id) (i : Nat) :
    lastValidValue recognized params i = lastValue params i := by
  induction params with
  | nil => rfl
  | cons q rest ih =>
    have hq : recognized q.id := h q (by simp)
    have hrest : ∀ q' ∈ rest, recognized q'.id := fun q' hq' => h q' (by simp [hq'])
    simp [lastValidValue, lastValue, hq, ih hrest]

theorem set_config_eq (recognized : Nat → Bool) (p : Pica) (h : Nat) (device : Device)
    (cmd : SetConfigCmd)
    (hdev : mapLookup p.devices h = some device)
    (hready : device.state = DeviceState.DeviceStateReady)
    (hflag : cmd.packet_boundary_flag = PacketBoundaryFlag.Complete) :
    Pica.set_config recognized p h cmd =
      if invalidEntries recognized cmd.parameters = [] then
        some (⟨mapInsert p.devices h
          { device with
              config := mapExtend device.config (stage recognized [] cmd.parameters) }⟩,
          [(device.tx, UciPacket.SetConfigRsp StatusCode.UciStatusOk [])])
      else
        some (⟨mapInsert p.devices h device⟩,
          [(device.tx, UciPacket.SetConfigRsp StatusCode.UciStatusInvalidParam
              (invalidEntries recognized cmd.parameters))]) := by
  have hfold := setConfig_foldl recognized cmd.parameters [] []
  by_cases hinv : invalidEntries recognized cmd.parameters = []
  · simp [Pica.set_config, hdev, hready, hflag, hfold, hinv]
  · simp [Pica.set_config, hdev, hready, hflag, hfold, hinv]

theorem mapLookup_config_staged (recognized : Nat → Bool) (cfg : List (Nat × List Nat))
    (params : List DeviceParameter) (i : Nat) :
    mapLookup (mapExtend cfg (stage recognized [] params)) i =
      optOr (lastValidValue recognized params i) (mapLookup cfg i) := by
  rw [mapLookup_mapExtend (stage recognized [] params) i cfg
      (stage_keys_nodup recognized params [] (by simp)),
    mapLookup_stage, optOr_assoc]
  simp [mapLookup, optOr]

/-- C3: For every Set-Config command handled with the target device in Ready
state and boundary flag Complete: if any submitted parameter id is
unrecognized, the device's config store is left completely unchanged and the
response has status InvalidParam listing exactly the invalid parameters in
submission order (no valid entries mixed in); if every id is recognized, all
submitted values are written to the config store (per id, the value of its
last occurrence) and the response has status Ok with an empty parameter
list. Other devices are untouched. -/
theorem set_config_batch_validation (recognized : Nat → Bool) (p : Pica) (h : Nat)
    (device : Device) (cmd : SetConfigCmd)
    (hdev : mapLookup p.devices h = some device)
    (hready : device.state = DeviceState.DeviceStateReady)
    (hflag : cmd.packet_boundary_flag = PacketBoundaryFlag.Complete) :
    ∃ p' out, Pica.set_config recognized p h cmd = some (p', out) ∧
      (∀ h2, h2 ≠ h → mapLookup p'.devices h2 = mapLookup p.devices h2) ∧
      ∃ device', mapLookup p'.devices h = some device' ∧
        device'.tx = device.tx ∧ device'.state = device.state ∧
        (if cmd.parameters.all (fun q => recognized q.id) then
          out = [(device.tx, UciPacket.SetConfigRsp StatusCode.UciStatusOk [])] ∧
          ∀ i, mapLookup device'.config i =
            optOr (lastValidValue recognized cmd.parameters i) (mapLookup device.config i)
        else
          out = [(device.tx, UciPacket.SetConfigRsp StatusCode.UciStatusInvalidParam
            (invalidEntries recognized cmd.parameters))] ∧
          device'.config = device.config) := by
  rw [set_config_eq recognized p h device cmd hdev hready hflag]
  by_cases hall : cmd.parameters.all (fun q => recognized q.id)
  · have hinv : invalidEntries recognized cmd.parameters = [] :=
      (invalidEntries_eq_nil_iff recognized cmd.parameters).2
        (fun q hq => List.all_eq_true.1 hall q hq)
    rw [if_pos hinv]
    refine ⟨_, _, rfl, ?_,
      { device with config := mapExtend device.config (stage recognized [] cmd.parameters) },
      ?_, rfl, rfl, ?_⟩
    · intro h2 hne
      rw [mapLookup_mapInsert, if_neg (fun he => hne he.symm)]
    · rw [mapLookup_mapInsert, if_pos rfl]
    · rw [if_pos hall]
      exact ⟨rfl, fun i => mapLookup_config_staged recognized device.config cmd.parameters i⟩
  · have hinv : ¬ invalidEntries recognized cmd.parameters = [] := fun hc =>
      hall (List.all_eq_true.2 ((invalidEntries_eq_nil_iff recognized cmd.parameters).1 hc))
    rw [if_neg hinv]
    refine ⟨_, _, rfl, ?_, device, ?_, rfl, rfl, ?_⟩
    · intro h2 hne
      rw [mapLookup_mapInsert, if_neg (fun he => hne he.symm)]
    · rw [mapLookup_mapInsert, if_pos rfl]
    · rw [if_neg hall]
      exact ⟨rfl, rfl⟩

/-- C10: If a Set-Config command whose parameter ids are all recognized
contains the same id several times, the batch is accepted (status Ok, empty
parameter list) and the value stored for that id is the value of its last
occurrence in the command. -/
theorem set_config_duplicate_id_last_occurrence_wins (recognized : Nat → Bool)
    (p : Pica) (h : Nat) (device : Device) (cmd : SetConfigCmd) (i : Nat)
    (hdev : mapLookup p.devices h = some device)
    (hready : device.state = DeviceState.DeviceStateReady)
    (hflag : cmd.packet_boundary_flag = PacketBoundaryFlag.Complete)
    (hvalid : ∀ q ∈ cmd.parameters, recognized q.id)
    (hocc : (lastValue cmd.parameters i).isSome) :
    ∃ p', Pica.set_config recognized p h cmd =
        some (p', [(device.tx, UciPacket.SetConfigRsp StatusCode.UciStatusOk [])]) ∧
      ∃ device', mapLookup p'.devices h = some device' ∧
        mapLookup device'.config i = lastValue cmd.parameters i := by
  have hinv : invalidEntries recognized cmd.parameters = [] :=
    (invalidEntries_eq_nil_iff _ _).2 hvalid
  rw [set_config_eq recognized p h device cmd hdev hready hflag, if_pos hinv]
  refine ⟨_, rfl,
    { device with config := mapExtend device.config (stage recognized [] cmd.parameters) },
    ?_, ?_⟩
  · rw [mapLookup_mapInsert, if_pos rfl]
  · show mapLookup (mapExtend device.config (stage recognized [] cmd.parameters)) i = _
    rw [mapLookup_config_staged, lastValidValue_eq_lastValue recognized _ hvalid]
    exact optOr_of_isSome _ _ hocc

/-- C5: For every Get-Config command with boundary flag Complete: each
requested id present in the config store yields that id with its stored
value, each absent id yields that id with an empty value, both lists in
request order; the response is Ok carrying the found parameters iff every
requested id resolves, else InvalidParam carrying the unresolved ids with
empty values. No state changes. -/
theorem get_config_resolution (p : Pica) (h : Nat) (device : Device) (cmd : GetConfigCmd)
    (hdev : mapLookup p.devices h = some device)
    (hflag : cmd.packet_boundary_flag = PacketBoundaryFlag.Complete) :
    Pica.get_config p h cmd =
      some (p, [(device.tx,
        if cmd.parameter_ids.all (fun i => (mapLookup device.config i).isSome) then
          UciPacket.GetConfigRsp StatusCode.UciStatusOk
            (resolvedParams device.config cmd.parameter_ids)
        else
          UciPacket.GetConfigRsp StatusCode.UciStatusInvalidParam
            (unresolvedParams device.config cmd.parameter_ids))]) := by
  have hfold := getConfig_foldl device.config cmd.parameter_ids [] []
  by_cases hall : cmd.parameter_ids.all (fun i => (mapLookup device.config i).isSome)
  · have hnil : unresolvedParams device.config cmd.parameter_ids = [] :=
      (unresolvedParams_eq_nil_iff _ _).2 (fun i hi => List.all_eq_true.1 hall i hi)
    simp [Pica.get_config, hdev, hflag, hfold, hnil, hall]
  · have hnn : ¬ unresolvedParams device.config cmd.parameter_ids = [] := fun hc =>
      hall (List.all_eq_true.2 ((unresolvedParams_eq_nil_iff _ _).1 hc))
    simp [Pica.get_config, hdev, hflag, hfold, hnn, hall]

/-- C7: Get-Caps-Info with boundary flag Complete, in every device state,
mutates nothing (the returned Pica is the input Pica) and responds Ok with
the full static capability table, entry for entry in table order. -/
theorem get_caps_info_static_table (p : Pica) (h : Nat) (device : Device)
    (cmd : GetCapsInfoCmd)
    (hdev : mapLookup p.devices h = some device)
    (hflag : cmd.packet_boundary_flag = PacketBoundaryFlag.Complete) :
    Pica.get_caps_info p h cmd =
      some (p, [(device.tx, UciPacket.GetCapsInfoRsp StatusCode.UciStatusOk
        (DEFAULT_CAPS_INFO.map (fun e => CapTlv.mk e.1 e.2)))]) := by
  simp [Pica.get_caps_info, hdev, hflag]

/-- C8: With the target device in Ready state, Get-Device-Info never trips
its fatal assertion (the handler succeeds), mutates nothing (the returned
Pica is the input Pica) and responds Ok with the fixed version numbers
UCI 0x110, MAC 0x130, PHY 0x130, test 0x110. -/
theorem get_device_info_ready (p : Pica) (h : Nat) (device : Device)
    (cmd : GetDeviceInfoCmd)
    (hdev : mapLookup p.devices h = some device)
    (hready : device.state = DeviceState.DeviceStateReady) :
    Pica.get_device_info p h cmd =
      some (p, [(device.tx, UciPacket.GetDeviceInfoRsp StatusCode.UciStatusOk
        0x110 0x130 0x130 0x110 [])]) := by
  simp [Pica.get_device_info, hdev, hready, UCI_VERSION, MAC_VERSION, PHY_VERSION,
    TEST_VERSION]

/-- C4: Device Reset, issued with the device in any state, reinitializes the
Device registered for the handle: all sessions and config entries cleared,
state Ready, handle and outbound channel preserved, and exactly two packets
emitted in order: the reset response with status Ok, then a
Device-Status(Ready) notification. Other devices are untouched. -/
theorem device_reset_reinitializes (p : Pica) (h : Nat) (device : Device)
    (cmd : DeviceResetCmd)
    (hdev : mapLookup p.devices h = some device) :
    ∃ p', Pica.device_reset p h cmd =
        some (p', [(device.tx, UciPacket.DeviceResetRsp StatusCode.UciStatusOk),
                   (device.tx, UciPacket.DeviceStatusNtf DeviceState.DeviceStateReady)]) ∧
      mapLookup p'.devices h = some (Device.new h device.tx) ∧
      (Device.new h device.tx).sessions = [] ∧
      (Device.new h device.tx).config = [] ∧
      (Device.new h device.tx).state = DeviceState.DeviceStateReady ∧
      (Device.new h device.tx).mac_address = h ∧
      (Device.new h device.tx).tx = device.tx ∧
      ∀ h2, h2 ≠ h → mapLookup p'.devices h2 = mapLookup p.devices h2 := by
  obtain ⟨rc⟩ := cmd
  cases rc
  have h1 : mapLookup
      (mapInsert p.devices h { device with state := DeviceState.DeviceStateReady }) h
      = some { device with state := DeviceState.DeviceStateReady } := by
    rw [mapLookup_mapInsert, if_pos rfl]
  refine ⟨⟨mapInsert
      (mapInsert p.devices h { device with state := DeviceState.DeviceStateReady }) h
      (Device.new h device.tx)⟩, ?_, ?_, by rfl, by rfl, by rfl, by rfl, by rfl, ?_⟩
  · simp [Pica.device_reset, Device.new, hdev, h1, mapLookup_mapInsert]
  · rw [mapLookup_mapInsert, if_pos rfl]
  · intro h2 hne
    rw [mapLookup_mapInsert, if_neg (fun he => hne he.symm),
      mapLookup_mapInsert, if_neg (fun he => hne he.symm)]

theorem runSetConfigs_ok (recognized : Nat → Bool) (cmds : List SetConfigCmd) :
    ∀ (p : Pica) (h : Nat) (device : Device),
      mapLookup p.devices h = some device →
      device.state = DeviceState.DeviceStateReady →
      (∀ cmd ∈ cmds, cmd.packet_boundary_flag = PacketBoundaryFlag.Complete) →
      (∀ cmd ∈ cmds, ∀ q ∈ cmd.parameters, recognized q.id) →
      ∃ p', runSetConfigs recognized p h cmds = some p' ∧
        ∃ device', mapLookup p'.devices h = some device' ∧
          device'.tx = device.tx ∧
          device'.state = DeviceState.DeviceStateReady ∧
          ∀ i, mapLookup device'.config i =
            optOr (lastWritten cmds i) (mapLookup device.config i) := by
  induction cmds with
  | nil =>
    intro p h device hdev hready _ _
    exact ⟨p, rfl, device, hdev, rfl, hready,
      fun i => by simp [lastWritten, allWrites, lastValue, optOr]⟩
  | cons cmd rest ih =>
    intro p h device hdev hready hflags hvalid
    have hflag : cmd.packet_boundary_flag = PacketBoundaryFlag.Complete :=
      hflags cmd (by simp)
    have hv : ∀ q ∈ cmd.parameters, recognized q.id := hvalid cmd (by simp)
    have hinv : invalidEntries recognized cmd.parameters = [] :=
      (invalidEntries_eq_nil_iff _ _).2 hv
    have hstep := set_config_eq recognized p h device cmd hdev hready hflag
    rw [if_pos hinv] at hstep
    have hlk1 : mapLookup (mapInsert p.devices h
        { device with
            config := mapExtend device.config (stage recognized [] cmd.parameters) }) h
        = some { device with
            config := mapExtend device.config (stage recognized [] cmd.parameters) } := by
      rw [mapLookup_mapInsert, if_pos rfl]
    obtain ⟨p', hrun, device', hlk', htx, hst, hcfg⟩ :=
      ih ⟨mapInsert p.devices h
          { device with
              config := mapExtend device.config (stage recognized [] cmd.parameters) }⟩
        h { device with
              config := mapExtend device.config (stage recognized [] cmd.parameters) }
        hlk1 hready
        (fun c hc => hflags c (by simp [hc]))
        (fun c hc => hvalid c (by simp [hc]))
    refine ⟨p', ?_, device', hlk', htx, hst, ?_⟩
    · show runSetConfigs recognized p h (cmd :: rest) = some p'
      simp only [runSetConfigs, hstep]
      exact hrun
    · intro i
      rw [hcfg i]
      have hl1 : mapLookup (mapExtend device.config (stage recognized [] cmd.parameters)) i
          = optOr (lastValue cmd.parameters i) (mapLookup device.config i) := by
        rw [mapLookup_config_staged, lastValidValue_eq_lastValue recognized _ hv]
      rw [hl1, ← optOr_assoc]
      have hcomb : optOr (lastWritten rest i) (lastValue cmd.parameters i)
          = lastWritten (cmd :: rest) i := by
        show optOr (lastValue (allWrites rest) i) (lastValue cmd.parameters i)
            = lastValue (allWrites (cmd :: rest)) i
        rw [show allWrites (cmd :: rest) = cmd.parameters ++ allWrites rest from rfl,
          lastValue_append]
      rw [hcomb]

/-- C6: For every finite sequence of Set-Config commands on one device in
which every parameter id is recognized (device Ready, flags Complete), a
subsequent Get-Config for any list of ids each written by the sequence
succeeds with status Ok and returns, in the requested order, exactly the
last-written value per id. -/
theorem set_then_get_config_last_written (recognized : Nat → Bool) (p : Pica)
    (h : Nat) (device : Device) (cmds : List SetConfigCmd) (ids : List Nat)
    (hdev : mapLookup p.devices h = some device)
    (hready : device.state = DeviceState.DeviceStateReady)
    (hflags : ∀ cmd ∈ cmds, cmd.packet_boundary_flag = PacketBoundaryFlag.Complete)
    (hvalid : ∀ cmd ∈ cmds, ∀ q ∈ cmd.parameters, recognized q.id)
    (hwritten : ∀ i ∈ ids, (lastWritten cmds i).isSome) :
    ∃ p' device', runSetConfigs recognized p h cmds = some p' ∧
      mapLookup p'.devices h = some device' ∧
      Pica.get_config p' h ⟨PacketBoundaryFlag.Complete, ids⟩ =
        some (p', [(device'.tx,
          UciPacket.GetConfigRsp StatusCode.UciStatusOk
            (ids.map (fun i => { id := i, value := (lastWritten cmds i).getD [] })))]) := by
  obtain ⟨p', hrun, device', hlk', htx, hst, hcfg⟩ :=
    runSetConfigs_ok recognized cmds p h device hdev hready hflags hvalid
  have hval : ∀ i ∈ ids, mapLookup device'.config i = lastWritten cmds i := by
    intro i hi
    rw [hcfg i]
    exact optOr_of_isSome _ _ (hwritten i hi)
  have hallsome : ∀ i ∈ ids, (mapLookup device'.config i).isSome := by
    intro i hi
    rw [hval i hi]
    exact hwritten i hi
  refine ⟨p', device', hrun, hlk', ?_⟩
  rw [get_config_resolution p' h device' ⟨PacketBoundaryFlag.Complete, ids⟩ hlk' rfl]
  have hall : ids.all (fun i => (mapLookup device'.config i).isSome) :=
    List.all_eq_true.2 (fun i hi => hallsome i hi)
  rw [if_pos hall, resolvedParams_eq_map device'.config ids hallsome]
  have hmap : ids.map
        (fun i => ({ id := i, value := (mapLookup device'.config i).getD [] } : DeviceParameter))
      = ids.map
        (fun i => ({ id := i, value := (lastWritten cmds i).getD [] } : DeviceParameter)) := by
    apply List.map_congr_left
    intro i hi
    rw [hval i hi]
  rw [hmap]

/-- A device with non-trivial state (Error state, one session, one config
entry), used to instantiate theorems on concrete inputs. -/
def exDirtyDevice : Device :=
  { Device.new 4 9 with
      state := DeviceState.DeviceStateError
      sessions := [(5, mkSession 5)]
      config := [(1, [7])] }

/-- Witness for C3 at a concrete command mixing a recognized id (1) with an
unrecognized one (2). -/
theorem set_config_batch_validation_witness :
    ∃ p' out, Pica.set_config (fun i => i == 1) ⟨[(4, Device.new 4 9)]⟩ 4
        ⟨PacketBoundaryFlag.Complete, [⟨1, [7]⟩, ⟨2, [5]⟩]⟩ = some (p', out) ∧
      (∀ h2, h2 ≠ 4 → mapLookup p'.devices h2 =
        mapLookup (⟨[(4, Device.new 4 9)]⟩ : Pica).devices h2) ∧
      ∃ device', mapLookup p'.devices 4 = some device' ∧
        device'.tx = (Device.new 4 9).tx ∧ device'.state = (Device.new 4 9).state ∧
        (if ([⟨1, [7]⟩, ⟨2, [5]⟩] : List DeviceParameter).all
            (fun q => (fun i => i == 1) q.id) then
          out = [((Device.new 4 9).tx, UciPacket.SetConfigRsp StatusCode.UciStatusOk [])] ∧
          ∀ i, mapLookup device'.config i =
            optOr (lastValidValue (fun i => i == 1) [⟨1, [7]⟩, ⟨2, [5]⟩] i)
              (mapLookup (Device.new 4 9).config i)
        else
          out = [((Device.new 4 9).tx,
            UciPacket.SetConfigRsp StatusCode.UciStatusInvalidParam
              (invalidEntries (fun i => i == 1) [⟨1, [7]⟩, ⟨2, [5]⟩]))] ∧
          device'.config = (Device.new 4 9).config) :=
  set_config_batch_validation (fun i => i == 1) ⟨[(4, Device.new 4 9)]⟩ 4
    (Device.new 4 9) ⟨PacketBoundaryFlag.Complete, [⟨1, [7]⟩, ⟨2, [5]⟩]⟩
    (by decide) (by decide) (by decide)

/-- Witness for C10: within one command, id 1 is submitted twice with
values [7] then [9]; the stored value is that of the last occurrence. -/
theorem set_config_duplicate_id_last_occurrence_wins_witness :
    (lastValue [⟨1, [7]⟩, ⟨1, [9]⟩] 1 = some [9]) ∧
    ∃ p', Pica.set_config (fun i => i == 1) ⟨[(4, Device.new 4 9)]⟩ 4
        ⟨PacketBoundaryFlag.Complete, [⟨1, [7]⟩, ⟨1, [9]⟩]⟩ =
        some (p', [((Device.new 4 9).tx, UciPacket.SetConfigRsp StatusCode.UciStatusOk [])]) ∧
      ∃ device', mapLookup p'.devices 4 = some device' ∧
        mapLookup device'.config 1 = lastValue [⟨1, [7]⟩, ⟨1, [9]⟩] 1 :=
  ⟨by decide,
    set_config_duplicate_id_last_occurrence_wins (fun i => i == 1)
      ⟨[(4, Device.new 4 9)]⟩ 4 (Device.new 4 9)
      ⟨PacketBoundaryFlag.Complete, [⟨1, [7]⟩, ⟨1, [9]⟩]⟩ 1
      (by decide) (by decide) (by decide) (by decide) (by decide)⟩

/-- Witness for C5: Get-Config for the single never-written id 5 returns
that id with an empty value and overall status InvalidParam. -/
theorem get_config_resolution_witness :
    Pica.get_config ⟨[(0, Device.new 0 3)]⟩ 0 ⟨PacketBoundaryFlag.Complete, [5]⟩ =
      some (⟨[(0, Device.new 0 3)]⟩,
        [(3, UciPacket.GetConfigRsp StatusCode.UciStatusInvalidParam
          [{ id := 5, value := [] }])]) :=
  (get_config_resolution ⟨[(0, Device.new 0 3)]⟩ 0 (Device.new 0 3)
    ⟨PacketBoundaryFlag.Complete, [5]⟩ (by decide) rfl).trans (by decide)

/-- Witness for C4 at a device in Error state with one session and one
config entry. -/
theorem device_reset_reinitializes_witness :
    ∃ p', Pica.device_reset ⟨[(4, exDirtyDevice)]⟩ 4 ⟨ResetConfig.UwbsReset⟩ =
        some (p', [(exDirtyDevice.tx, UciPacket.DeviceResetRsp StatusCode.UciStatusOk),
                   (exDirtyDevice.tx, UciPacket.DeviceStatusNtf DeviceState.DeviceStateReady)]) ∧
      mapLookup p'.devices 4 = some (Device.new 4 exDirtyDevice.tx) ∧
      (Device.new 4 exDirtyDevice.tx).sessions = [] ∧
      (Device.new 4 exDirtyDevice.tx).config = [] ∧
      (Device.new 4 exDirtyDevice.tx).state = DeviceState.DeviceStateReady ∧
      (Device.new 4 exDirtyDevice.tx).mac_address = 4 ∧
      (Device.new 4 exDirtyDevice.tx).tx = exDirtyDevice.tx ∧
      ∀ h2, h2 ≠ 4 → mapLookup p'.devices h2 =
        mapLookup (⟨[(4, exDirtyDevice)]⟩ : Pica).devices h2 :=
  device_reset_reinitializes ⟨[(4, exDirtyDevice)]⟩ 4 exDirtyDevice
    ⟨ResetConfig.UwbsReset⟩ (by decide)

/-- Witness for C6: the spec scenario — Set-Config(id 0x01, value [7]) then
Get-Config([0x01]) returns status Ok with parameters [(0x01, [7])]. -/
theorem set_then_get_config_last_written_witness :
    ∃ p' device',
      runSetConfigs (fun i => i == 1) ⟨[(0, Device.new 0 3)]⟩ 0
        [⟨PacketBoundaryFlag.Complete, [⟨1, [7]⟩]⟩] = some p' ∧
      mapLookup p'.devices 0 = some device' ∧
      Pica.get_config p' 0 ⟨PacketBoundaryFlag.Complete, [1]⟩ =
        some (p', [(device'.tx,
          UciPacket.GetConfigRsp StatusCode.UciStatusOk
            ([1].map (fun i =>
              { id := i,
                value := (lastWritten [⟨PacketBoundaryFlag.Complete, [⟨1, [7]⟩]⟩] i).getD [] })))]) :=
  set_then_get_config_last_written (fun i => i == 1) ⟨[(0, Device.new 0 3)]⟩ 0
    (Device.new 0 3) [⟨PacketBoundaryFlag.Complete, [⟨1, [7]⟩]⟩] [1]
    (by decide) (by decide) (by decide) (by decide) (by decide)

/-- Witness for C7 at a device in Error state: the full static capability
table is still returned and nothing changes. -/
theorem get_caps_info_static_table_witness :
    Pica.get_caps_info ⟨[(4, exDirtyDevice)]⟩ 4 ⟨PacketBoundaryFlag.Complete⟩ =
      some (⟨[(4, exDirtyDevice)]⟩, [(exDirtyDevice.tx,
        UciPacket.GetCapsInfoRsp StatusCode.UciStatusOk
          (DEFAULT_CAPS_INFO.map (fun e => CapTlv.mk e.1 e.2)))]) :=
  get_caps_info_static_table ⟨[(4, exDirtyDevice)]⟩ 4 exDirtyDevice
    ⟨PacketBoundaryFlag.Complete⟩ (by decide) rfl

/-- Witness for C8 at a Ready device: the handler succeeds and reports the
fixed version numbers. -/
theorem get_device_info_ready_witness :
    Pica.get_device_info ⟨[(0, Device.new 0 3)]⟩ 0 ⟨PacketBoundaryFlag.Complete⟩ =
      some (⟨[(0, Device.new 0 3)]⟩, [(3,
        UciPacket.GetDeviceInfoRsp StatusCode.UciStatusOk 0x110 0x130 0x130 0x110 [])]) :=
  (get_device_info_ready ⟨[(0, Device.new 0 3)]⟩ 0 (Device.new 0 3)
    ⟨PacketBoundaryFlag.Complete⟩ (by decide) (by decide)).trans (by decide)
